import Mathlib

/-!
LoRaWAN hardware-abstraction header (LoRaWAN/lora.h)

A shallow embedding of the declarations of `lora.h`: the anonymous enumerations
(hardware roles, message types, device states, key slots), the constants, the
ioctl command codes built with the Linux `_IOR` / `_IOW` encoding, and the
prototypes of the core entry points.  The header declares the entry points
`lora_register_hw`, `lora_unregister_hw` and `lora_set_key` but holds no body for
them; their bodies are modelled from the written specification and are marked
as such.
-/

namespace LoRa

/-! ## Enumerations and constants of lora.h -/

/-- Message types of LoRaWAN: the anonymous enumeration at lora.h lines 56-64. -/
inductive MsgType where
  | LRW_JOIN_REQUEST
  | LRW_JOIN_ACCEPT
  | LRW_UNCONFIRMED_DATA_UP
  | LRW_UNCONFIRMED_DATA_DOWN
  | LRW_CONFIRMED_DATA_UP
  | LRW_CONFIRMED_DATA_DOWN
  | LRW_PROPRIETARY
  deriving DecidableEq, Repr, Fintype

/-- Integer value of a message-type enumerator: C numbers the enumerators of an
enumeration without initialisers 0, 1, 2, ... in declaration order. -/
def MsgType.val : MsgType → Nat
  | .LRW_JOIN_REQUEST => 0
  | .LRW_JOIN_ACCEPT => 1
  | .LRW_UNCONFIRMED_DATA_UP => 2
  | .LRW_UNCONFIRMED_DATA_DOWN => 3
  | .LRW_CONFIRMED_DATA_UP => 4
  | .LRW_CONFIRMED_DATA_DOWN => 5
  | .LRW_PROPRIETARY => 6

/-- The message-type enumerators in declaration order. -/
def msgTypes : List MsgType :=
  [.LRW_JOIN_REQUEST, .LRW_JOIN_ACCEPT, .LRW_UNCONFIRMED_DATA_UP,
   .LRW_UNCONFIRMED_DATA_DOWN, .LRW_CONFIRMED_DATA_UP, .LRW_CONFIRMED_DATA_DOWN,
   .LRW_PROPRIETARY]

/-- Length of a device address in bytes: `#define LRW_DEVADDR_LEN 4`. -/
def LRW_DEVADDR_LEN : Nat := 4

/-- States of the LoRa device: the anonymous enumeration at lora.h lines 86-94. -/
inductive LoraState where
  | LORA_STOP
  | LORA_START
  | LORA_STATE_IDLE
  | LORA_STATE_TX
  | LORA_STATE_RX1
  | LORA_STATE_RX2
  | LORA_STATE_CAD
  deriving DecidableEq, Repr, Fintype

/-- Integer value of a state enumerator (declaration order, from 0). -/
def LoraState.val : LoraState → Nat
  | .LORA_STOP => 0
  | .LORA_START => 1
  | .LORA_STATE_IDLE => 2
  | .LORA_STATE_TX => 3
  | .LORA_STATE_RX1 => 4
  | .LORA_STATE_RX2 => 5
  | .LORA_STATE_CAD => 6

/-- The state enumerators in declaration order. -/
def loraStates : List LoraState :=
  [.LORA_STOP, .LORA_START, .LORA_STATE_IDLE, .LORA_STATE_TX, .LORA_STATE_RX1,
   .LORA_STATE_RX2, .LORA_STATE_CAD]

/-- Key slot `LORA_APPKEY` of the enumeration at lora.h lines 179-183. -/
def LORA_APPKEY : Nat := 0

/-- Key slot `LORA_NWKSKEY`. -/
def LORA_NWKSKEY : Nat := 1

/-- Key slot `LORA_APPSKEY`. -/
def LORA_APPSKEY : Nat := 2

/-- Length of a key in bytes: `#define LORA_KEY_LEN 16`. -/
def LORA_KEY_LEN : Nat := 16

/-! ## ioctl command codes -/

/-- Linux ioctl encoding (include/uapi/asm-generic/ioctl.h, not part of this
repository): width of the sequence-number field. -/
def _IOC_NRBITS : Nat := 8

/-- Width of the type (magic) field. -/
def _IOC_TYPEBITS : Nat := 8

/-- Width of the argument-size field. -/
def _IOC_SIZEBITS : Nat := 14

/-- Width of the direction field. -/
def _IOC_DIRBITS : Nat := 2

/-- Shift of the sequence-number field. -/
def _IOC_NRSHIFT : Nat := 0

/-- Shift of the type field. -/
def _IOC_TYPESHIFT : Nat := _IOC_NRSHIFT + _IOC_NRBITS

/-- Shift of the size field. -/
def _IOC_SIZESHIFT : Nat := _IOC_TYPESHIFT + _IOC_TYPEBITS

/-- Shift of the direction field. -/
def _IOC_DIRSHIFT : Nat := _IOC_SIZESHIFT + _IOC_SIZEBITS

/-- Direction bits: the caller writes the argument to the driver. -/
def _IOC_WRITE : Nat := 1

/-- Direction bits: the caller reads the argument back from the driver. -/
def _IOC_READ : Nat := 2

/-- Command code `dir<<30 | type<<8 | nr<<0 | size<<16` as an unsigned 32-bit value. -/
def _IOC (dir type nr size : Nat) : Nat :=
  ((dir <<< _IOC_DIRSHIFT) ||| (type <<< _IOC_TYPESHIFT) |||
   (nr <<< _IOC_NRSHIFT) ||| (size <<< _IOC_SIZESHIFT)) % 2 ^ 32

/-- Read command: `_IOR(type, nr, T)` with `size = sizeof(T)`. -/
def _IOR (type nr size : Nat) : Nat := _IOC _IOC_READ type nr size

/-- Write command: `_IOW(type, nr, T)` with `size = sizeof(T)`. -/
def _IOW (type nr size : Nat) : Nat := _IOC _IOC_WRITE type nr size

/-- Decode the direction field of a command code. -/
def _IOC_DIR (cmd : Nat) : Nat := (cmd >>> _IOC_DIRSHIFT) &&& (2 ^ _IOC_DIRBITS - 1)

/-- Decode the type field of a command code. -/
def _IOC_TYPE (cmd : Nat) : Nat := (cmd >>> _IOC_TYPESHIFT) &&& (2 ^ _IOC_TYPEBITS - 1)

/-- Decode the sequence number of a command code. -/
def _IOC_NR (cmd : Nat) : Nat := (cmd >>> _IOC_NRSHIFT) &&& (2 ^ _IOC_NRBITS - 1)

/-- Decode the argument-size field of a command code. -/
def _IOC_SIZE (cmd : Nat) : Nat := (cmd >>> _IOC_SIZESHIFT) &&& (2 ^ _IOC_SIZEBITS - 1)

/-- Size of a C `int` in bytes on the Linux ABIs. -/
def sizeof_int : Nat := 4

/-- Magic number of the command set: `#define LRW_IOC_MAGIC '\x74'`. -/
def LRW_IOC_MAGIC : Nat := 0x74

def LRW_SET_STATE : Nat := _IOW LRW_IOC_MAGIC 0 sizeof_int
def LRW_GET_STATE : Nat := _IOR LRW_IOC_MAGIC 1 sizeof_int
def LRW_SET_FREQUENCY : Nat := _IOW LRW_IOC_MAGIC 2 sizeof_int
def LRW_GET_FREQUENCY : Nat := _IOR LRW_IOC_MAGIC 3 sizeof_int
def LRW_SET_POWER : Nat := _IOW LRW_IOC_MAGIC 4 sizeof_int
def LRW_GET_POWER : Nat := _IOR LRW_IOC_MAGIC 5 sizeof_int
def LRW_SET_LNA : Nat := _IOW LRW_IOC_MAGIC 6 sizeof_int
def LRW_GET_LNA : Nat := _IOR LRW_IOC_MAGIC 7 sizeof_int
def LRW_SET_LNAAGC : Nat := _IOR LRW_IOC_MAGIC 8 sizeof_int
def LRW_SET_SPRFACTOR : Nat := _IOW LRW_IOC_MAGIC 9 sizeof_int
def LRW_GET_SPRFACTOR : Nat := _IOR LRW_IOC_MAGIC 10 sizeof_int
def LRW_SET_BANDWIDTH : Nat := _IOW LRW_IOC_MAGIC 11 sizeof_int
def LRW_GET_BANDWIDTH : Nat := _IOR LRW_IOC_MAGIC 12 sizeof_int
def LRW_GET_RSSI : Nat := _IOR LRW_IOC_MAGIC 13 sizeof_int
def LRW_GET_SNR : Nat := _IOR LRW_IOC_MAGIC 14 sizeof_int

/-- Whether a command's name is `LRW_SET_*` or `LRW_GET_*`. -/
inductive Access where
  | SET
  | GET
  deriving DecidableEq, Repr

/-- The quantity a command's name refers to (the part after `LRW_SET_` / `LRW_GET_`). -/
inductive Param where
  | STATE
  | FREQUENCY
  | POWER
  | LNA
  | LNAAGC
  | SPRFACTOR
  | BANDWIDTH
  | RSSI
  | SNR
  deriving DecidableEq, Repr

/-- One `#define LRW_<access>_<param>` line: its name split in two, and its code. -/
structure Command where
  access : Access
  param : Param
  code : Nat
  deriving DecidableEq, Repr

/-- The command set of lora.h, lines 69-83, in source order. -/
def commands : List Command :=
  [ ⟨.SET, .STATE, LRW_SET_STATE⟩,
    ⟨.GET, .STATE, LRW_GET_STATE⟩,
    ⟨.SET, .FREQUENCY, LRW_SET_FREQUENCY⟩,
    ⟨.GET, .FREQUENCY, LRW_GET_FREQUENCY⟩,
    ⟨.SET, .POWER, LRW_SET_POWER⟩,
    ⟨.GET, .POWER, LRW_GET_POWER⟩,
    ⟨.SET, .LNA, LRW_SET_LNA⟩,
    ⟨.GET, .LNA, LRW_GET_LNA⟩,
    ⟨.SET, .LNAAGC, LRW_SET_LNAAGC⟩,
    ⟨.SET, .SPRFACTOR, LRW_SET_SPRFACTOR⟩,
    ⟨.GET, .SPRFACTOR, LRW_GET_SPRFACTOR⟩,
    ⟨.SET, .BANDWIDTH, LRW_SET_BANDWIDTH⟩,
    ⟨.GET, .BANDWIDTH, LRW_GET_BANDWIDTH⟩,
    ⟨.GET, .RSSI, LRW_GET_RSSI⟩,
    ⟨.GET, .SNR, LRW_GET_SNR⟩ ]

/-- The command set holds a command of the given access for the given quantity. -/
def hasCommand (a : Access) (p : Param) : Bool :=
  commands.any (fun c => decide (c.access = a ∧ c.param = p))

/-- The direction bits a command should carry according to its name:
a set command passes the value in, a get command returns it. -/
def Access.dir : Access → Nat
  | .SET => _IOC_WRITE
  | .GET => _IOC_READ

/-! ## Device handle and operation table -/

/-- The device handle: `struct lora_hw` of lora.h lines 106-114.  Pointers are
addresses; the driver-private region `priv` is a sequence of bytes. -/
structure lora_hw where
  parent : Nat
  priv : List Nat
  channels : Nat
  current_channel : Nat
  tx_powers : List Int
  tx_powers_size : Nat
  transmit_power : Int
  deriving DecidableEq, Repr

/-- The operation table: `struct lora_operations` of lora.h lines 155-170.  A
callback receives the handle, which it may update, and returns its `int` result
(`stop` returns nothing); a callback left unimplemented is `NULL`, here `none`. -/
structure lora_operations where
  start : Option (lora_hw → Int × lora_hw)
  stop : Option (lora_hw → lora_hw)
  xmit_async : Option (lora_hw → List Nat → Int × lora_hw)
  set_txpower : Option (lora_hw → Int → Int × lora_hw)
  set_frq : Option (lora_hw → Nat → Int × lora_hw)
  set_bw : Option (lora_hw → Nat → Int × lora_hw)
  set_mod : Option (lora_hw → Nat → Int × lora_hw)
  set_sf : Option (lora_hw → Nat → Int × lora_hw)
  start_rx_window : Option (lora_hw → Nat → Int × lora_hw)
  set_state : Option (lora_hw → Nat → Int × lora_hw)
  get_state : Option (lora_hw → Nat → Int × lora_hw)

/-- Modelled from the spec: the error kinds of section 7.  The header declares
`int` results and names no error constants. -/
inductive LoraError where
  | AlreadyRegistered
  | NotRegistered
  | InvalidState
  | Busy
  | InvalidArgument
  | InvalidLength
  | InvalidSlot
  | Unsupported
  | ResourceExhausted
  | HardwareFailure
  deriving DecidableEq, Repr

/-- Names of the driver entry points the core can call. -/
inductive Callback where
  | start
  | stop
  | xmit_async
  | start_rx_window
  | install_key
  deriving DecidableEq, Repr

/-- Modelled from the spec: a device as the core sees it.  `addr` is the identity
of the handle (the value of the `struct lora_hw *`), `state` the current radio
state, `log` the driver entry points called so far (oldest first). -/
structure Device where
  addr : Nat
  hw : lora_hw
  state : LoraState
  log : List Callback
  deriving DecidableEq, Repr

/-! ## State machine (section 4.2) -/

/-- Modelled from the spec: the six state names used by the transition table. -/
inductive TableState where
  | Stopped
  | StartedIdle
  | Transmitting
  | ReceiveWindow1
  | ReceiveWindow2
  | CarrierDetect
  deriving DecidableEq, Repr

/-- Modelled from the spec: the table name of each value of the state
enumeration.  The table has one name, Started/Idle, for the two enumerators
`LORA_START` and `LORA_STATE_IDLE`. -/
def LoraState.tableState : LoraState → TableState
  | .LORA_STOP => .Stopped
  | .LORA_START => .StartedIdle
  | .LORA_STATE_IDLE => .StartedIdle
  | .LORA_STATE_TX => .Transmitting
  | .LORA_STATE_RX1 => .ReceiveWindow1
  | .LORA_STATE_RX2 => .ReceiveWindow2
  | .LORA_STATE_CAD => .CarrierDetect

/-- The two receive windows. -/
inductive RxSlot where
  | one
  | two
  deriving DecidableEq, Repr

/-- Number of a receive window, as handed to `start_rx_window`. -/
def RxSlot.val : RxSlot → Nat
  | .one => 1
  | .two => 2

/-- Modelled from the spec: the events of the transition table.  A transmit
request carries the outbound buffer. -/
inductive Event where
  | start
  | stop
  | begin_transmit (skb : List Nat)
  | transmit_complete
  | open_rx_window (slot : RxSlot)
  | frame_received
  | window_timeout
  | begin_carrier_detect
  | detect_complete
  deriving DecidableEq, Repr

/-- Name of an event, without its payload: the Event column of the table. -/
inductive EventName where
  | start
  | stop
  | begin_transmit
  | transmit_complete
  | open_rx_window
  | frame_received
  | window_timeout
  | begin_carrier_detect
  | detect_complete
  deriving DecidableEq, Repr

/-- Name of an event. -/
def Event.name : Event → EventName
  | .start => .start
  | .stop => .stop
  | .begin_transmit _ => .begin_transmit
  | .transmit_complete => .transmit_complete
  | .open_rx_window _ => .open_rx_window
  | .frame_received => .frame_received
  | .window_timeout => .window_timeout
  | .begin_carrier_detect => .begin_carrier_detect
  | .detect_complete => .detect_complete

/-- One row of the transition table: From, Event, To, driver callback invoked. -/
structure Row where
  src : TableState
  event : EventName
  dst : TableState
  callback : Option Callback
  deriving DecidableEq, Repr

/-- Modelled from the spec: the transition table of section 4.2 as written, with
the rows that name two states or two events spelled out one by one. -/
def transitionTable : List Row :=
  [ ⟨.Stopped, .start, .StartedIdle, some .start⟩,
    ⟨.StartedIdle, .stop, .Stopped, some .stop⟩,
    ⟨.StartedIdle, .begin_transmit, .Transmitting, some .xmit_async⟩,
    ⟨.Transmitting, .transmit_complete, .StartedIdle, none⟩,
    ⟨.StartedIdle, .open_rx_window, .ReceiveWindow1, some .start_rx_window⟩,
    ⟨.StartedIdle, .open_rx_window, .ReceiveWindow2, some .start_rx_window⟩,
    ⟨.ReceiveWindow1, .frame_received, .StartedIdle, none⟩,
    ⟨.ReceiveWindow1, .window_timeout, .StartedIdle, none⟩,
    ⟨.ReceiveWindow2, .frame_received, .StartedIdle, none⟩,
    ⟨.ReceiveWindow2, .window_timeout, .StartedIdle, none⟩,
    ⟨.StartedIdle, .begin_carrier_detect, .CarrierDetect, none⟩,
    ⟨.CarrierDetect, .detect_complete, .StartedIdle, none⟩ ]

/-- The transition table has a row for the state and the event. -/
def hasRow (s : TableState) (e : EventName) : Bool :=
  transitionTable.any (fun r => decide (r.src = s ∧ r.event = e))

/-- Modelled from the spec: call the driver callback a row names.  An absent
callback is `Unsupported`; a callback that reports failure (a non-zero result)
is `HardwareFailure`.  The callback's update of the handle is kept either way. -/
def callDriver (ops : lora_operations) (dev : Device) (e : Event) :
    Callback → Except LoraError Unit × Device
  | .start =>
    match ops.start with
    | none => (.error .Unsupported, dev)
    | some f =>
      let r := f dev.hw
      let dev1 := { dev with hw := r.2, log := dev.log ++ [.start] }
      if r.1 = 0 then (.ok (), dev1) else (.error .HardwareFailure, dev1)
  | .stop =>
    match ops.stop with
    | none => (.error .Unsupported, dev)
    | some f => (.ok (), { dev with hw := f dev.hw, log := dev.log ++ [.stop] })
  | .xmit_async =>
    match ops.xmit_async, e with
    | some f, .begin_transmit skb =>
      let r := f dev.hw skb
      let dev1 := { dev with hw := r.2, log := dev.log ++ [.xmit_async] }
      if r.1 = 0 then (.ok (), dev1) else (.error .HardwareFailure, dev1)
    | _, _ => (.error .Unsupported, dev)
  | .start_rx_window =>
    match ops.start_rx_window, e with
    | some f, .open_rx_window slot =>
      let r := f dev.hw slot.val
      let dev1 := { dev with hw := r.2, log := dev.log ++ [.start_rx_window] }
      if r.1 = 0 then (.ok (), dev1) else (.error .HardwareFailure, dev1)
    | _, _ => (.error .Unsupported, dev)
  | .install_key => (.error .Unsupported, dev)

/-- Modelled from the spec: make a transition.  The driver callback, if the
transition has one, is called first; when it succeeds (or there is none) the
target state is entered, when it fails the state is kept and the failure is the
result. -/
def enter (ops : lora_operations) (dev : Device) (e : Event) (cb : Option Callback)
    (target : LoraState) : Except LoraError Unit × Device :=
  match cb with
  | none => (.ok (), { dev with state := target })
  | some cb =>
    match callDriver ops dev e cb with
    | (.ok (), dev1) => (.ok (), { dev1 with state := target })
    | (.error err, dev1) => (.error err, dev1)

/-- Modelled from the spec: attempt an event on a device (the header holds no
function for it).  The transitions of section 4.2 are made as the table lists
them, the state entered for Started/Idle being `LORA_STATE_IDLE`.  Two further
rules of the spec apply to pairs the table does not list: stopping a device
while Transmitting or in a Receive-Window is a forced transition to Stopped
that calls the driver's `stop` (section 5), and a transmit request on a device
that is Transmitting is rejected with `Busy`, the state kept (section 8).  Every
other attempt is rejected with `InvalidState` and the device is left as it was
(section 4.2). -/
def attempt (ops : lora_operations) (dev : Device) (e : Event) :
    Except LoraError Unit × Device :=
  match e, dev.state.tableState with
  | .start, .Stopped => enter ops dev e (some .start) .LORA_STATE_IDLE
  | .stop, .StartedIdle => enter ops dev e (some .stop) .LORA_STOP
  | .stop, .Transmitting => enter ops dev e (some .stop) .LORA_STOP
  | .stop, .ReceiveWindow1 => enter ops dev e (some .stop) .LORA_STOP
  | .stop, .ReceiveWindow2 => enter ops dev e (some .stop) .LORA_STOP
  | .begin_transmit _, .StartedIdle => enter ops dev e (some .xmit_async) .LORA_STATE_TX
  | .begin_transmit _, .Transmitting => (.error .Busy, dev)
  | .transmit_complete, .Transmitting => enter ops dev e none .LORA_STATE_IDLE
  | .open_rx_window .one, .StartedIdle =>
    enter ops dev e (some .start_rx_window) .LORA_STATE_RX1
  | .open_rx_window .two, .StartedIdle =>
    enter ops dev e (some .start_rx_window) .LORA_STATE_RX2
  | .frame_received, .ReceiveWindow1 => enter ops dev e none .LORA_STATE_IDLE
  | .frame_received, .ReceiveWindow2 => enter ops dev e none .LORA_STATE_IDLE
  | .window_timeout, .ReceiveWindow1 => enter ops dev e none .LORA_STATE_IDLE
  | .window_timeout, .ReceiveWindow2 => enter ops dev e none .LORA_STATE_IDLE
  | .begin_carrier_detect, .StartedIdle => enter ops dev e none .LORA_STATE_CAD
  | .detect_complete, .CarrierDetect => enter ops dev e none .LORA_STATE_IDLE
  | _, _ => (.error .InvalidState, dev)

/-! ## Registry (section 4.1) -/

/-- Modelled from the spec: the registry, the handles registered at present. -/
abbrev Registry := List Nat

/-- Modelled from the spec: the body of `int lora_register_hw(struct lora_hw *)`
(declared at lora.h line 174, defined outside the header).  A handle already in
the registry is rejected with `AlreadyRegistered` and the registry is left as it
was; otherwise the handle is added. -/
def lora_register_hw (reg : Registry) (dev : Device) : Except LoraError Unit × Registry :=
  if dev.addr ∈ reg then (.error .AlreadyRegistered, reg)
  else (.ok (), dev.addr :: reg)

/-- Modelled from the spec: the body of `void lora_unregister_hw(struct lora_hw *)`
(declared at lora.h line 175, defined outside the header).  The result type is
the header's: the function returns no value, here `Unit`.  A registered handle in
the Stopped state is removed from the registry; any other call leaves the
registry as it was. -/
def lora_unregister_hw (reg : Registry) (dev : Device) : Unit × Registry :=
  if dev.addr ∈ reg ∧ dev.state = .LORA_STOP then ((), reg.filter (fun a => a ≠ dev.addr))
  else ((), reg)

/-- A call on the registry. -/
inductive RegistryCall where
  | register (dev : Device)
  | unregister (dev : Device)
  deriving DecidableEq, Repr

/-- The registry after one call. -/
def RegistryCall.run (reg : Registry) : RegistryCall → Registry
  | .register dev => (lora_register_hw reg dev).2
  | .unregister dev => (lora_unregister_hw reg dev).2

/-- The registry after a sequence of calls, first call first. -/
def runCalls (reg : Registry) (calls : List RegistryCall) : Registry :=
  calls.foldl RegistryCall.run reg

/-! ## Key management (section 4.4) -/

/-- The key slots of lora.h lines 179-183. -/
def keySlots : List Nat := [LORA_APPKEY, LORA_NWKSKEY, LORA_APPSKEY]

/-- Value of an argument passed through a `u8` parameter. -/
def u8 (n : Nat) : Nat := n % 2 ^ 8

/-- Modelled from the spec: the body of
`int lora_set_key(struct lora_hw *, u8, u8 *, size_t)` (declared at lora.h line
185, defined outside the header).  The slot arrives as a `u8`.  The length is
validated against `LORA_KEY_LEN` and the slot against the three slots; the spec
does not say which of the two checks is made first, `lengthFirst` selects it.  A
valid key is handed to the driver through `install`, the driver entry point that
stores a key (the operation table of the header has no slot for it). -/
def lora_set_key (lengthFirst : Bool) (install : lora_hw → Nat → List Nat → Int × lora_hw)
    (dev : Device) (slot : Nat) (key : List Nat) (len : Nat) :
    Except LoraError Unit × Device :=
  let forward : Except LoraError Unit × Device :=
    let r := install dev.hw (u8 slot) key
    let dev1 := { dev with hw := r.2, log := dev.log ++ [.install_key] }
    if r.1 = 0 then (.ok (), dev1) else (.error .HardwareFailure, dev1)
  if lengthFirst then
    if len ≠ LORA_KEY_LEN then (.error .InvalidLength, dev)
    else if u8 slot ∉ keySlots then (.error .InvalidSlot, dev)
    else forward
  else
    if u8 slot ∉ keySlots then (.error .InvalidSlot, dev)
    else if len ≠ LORA_KEY_LEN then (.error .InvalidLength, dev)
    else forward

/-! ## Sample values -/

/-- A handle with channels 0 and 1 and the power table 2, 14, 20. -/
def sampleHw : lora_hw :=
  { parent := 0, priv := [0, 0, 0, 0], channels := 3, current_channel := 0,
    tx_powers := [2, 14, 20], tx_powers_size := 12, transmit_power := 14 }

/-- A device at address 7 in the given state, no driver call made yet. -/
def sampleDev (st : LoraState) : Device :=
  { addr := 7, hw := sampleHw, state := st, log := [] }

/-- A driver key store that appends the slot and the key to its private region. -/
def sampleInstall (hw : lora_hw) (slot : Nat) (key : List Nat) : Int × lora_hw :=
  (0, { hw with priv := hw.priv ++ slot :: key })

/-- Registry calls made after device 7 was registered: another device registers,
device 3 unregisters, and device 7 tries to unregister while idle. -/
def sampleCalls : List RegistryCall :=
  [.register { sampleDev .LORA_STOP with addr := 9 },
   .unregister { sampleDev .LORA_STOP with addr := 3 },
   .unregister (sampleDev .LORA_STATE_IDLE)]

/-! ## Supporting lemmas -/

theorem mem_unregister_of_mem (reg : Registry) (dev : Device) (a : Nat) (ha : a ∈ reg)
    (hkeep : dev.addr = a → dev.state ≠ .LORA_STOP) :
    a ∈ (lora_unregister_hw reg dev).2 := by
  unfold lora_unregister_hw
  split
  · rename_i hc
    have hne : a ≠ dev.addr := fun h => hkeep h.symm hc.2
    simp [List.mem_filter, ha, hne]
  · exact ha

theorem mem_register_of_mem (reg : Registry) (dev : Device) (a : Nat) (ha : a ∈ reg) :
    a ∈ (lora_register_hw reg dev).2 := by
  unfold lora_register_hw
  split
  · exact ha
  · exact List.mem_cons_of_mem _ ha

theorem mem_runCalls_of_mem (calls : List RegistryCall) (reg : Registry) (a : Nat)
    (ha : a ∈ reg)
    (hkeep : ∀ x, RegistryCall.unregister x ∈ calls → x.addr = a → x.state ≠ .LORA_STOP) :
    a ∈ runCalls reg calls := by
  induction calls generalizing reg with
  | nil => simpa [runCalls] using ha
  | cons c rest ih =>
    have hstep : a ∈ RegistryCall.run reg c := by
      cases c with
      | register d => exact mem_register_of_mem reg d a ha
      | unregister d =>
        exact mem_unregister_of_mem reg d a ha
          (fun h => hkeep d (List.mem_cons_self _ _) h)
    have hrest : ∀ x, RegistryCall.unregister x ∈ rest → x.addr = a → x.state ≠ .LORA_STOP :=
      fun x hx => hkeep x (List.mem_cons_of_mem _ hx)
    have := ih (RegistryCall.run reg c) hstep hrest
    simpa [runCalls] using this

theorem register_of_mem (reg : Registry) (dev : Device) (h : dev.addr ∈ reg) :
    lora_register_hw reg dev = (.error .AlreadyRegistered, reg) := by
  simp [lora_register_hw, h]

theorem mem_after_register_ok (reg : Registry) (dev : Device)
    (hok : (lora_register_hw reg dev).1 = .ok ()) :
    dev.addr ∈ (lora_register_hw reg dev).2 := by
  unfold lora_register_hw at hok ⊢
  split
  · rename_i hc
    simp [hc] at hok
  · exact List.mem_cons_self _ _

theorem callDriver_not_InvalidState (ops : lora_operations) (dev : Device) (e : Event)
    (cb : Callback) : (callDriver ops dev e cb).1 ≠ .error .InvalidState := by
  cases cb with
  | start =>
    cases hf : ops.start with
    | none => simp [callDriver, hf]
    | some f =>
      by_cases hr : (f dev.hw).1 = 0 <;> simp [callDriver, hf, hr]
  | stop =>
    cases hf : ops.stop <;> simp [callDriver, hf]
  | xmit_async =>
    cases hf : ops.xmit_async with
    | none => simp [callDriver, hf]
    | some f =>
      cases e <;> simp [callDriver, hf]
      rename_i skb
      by_cases hr : (f dev.hw skb).1 = 0 <;> simp [hr]
  | start_rx_window =>
    cases hf : ops.start_rx_window with
    | none => simp [callDriver, hf]
    | some f =>
      cases e <;> simp [callDriver, hf]
      rename_i slot
      by_cases hr : (f dev.hw slot.val).1 = 0 <;> simp [hr]
  | install_key => simp [callDriver]

theorem enter_not_InvalidState (ops : lora_operations) (dev : Device) (e : Event)
    (cb : Option Callback) (target : LoraState) :
    (enter ops dev e cb target).1 ≠ .error .InvalidState := by
  cases cb with
  | none => simp [enter]
  | some cb =>
    have hcb := callDriver_not_InvalidState ops dev e cb
    rcases hres : callDriver ops dev e cb with ⟨r, dev1⟩
    rw [hres] at hcb
    cases r with
    | ok u => simp [enter, hres]
    | error err => simpa [enter, hres] using hcb

/-- An event the table lists for the current state is never answered with
`InvalidState`. -/
theorem attempt_listed_not_InvalidState (ops : lora_operations) (dev : Device) (e : Event)
    (h : hasRow dev.state.tableState e.name = true) :
    (attempt ops dev e).1 ≠ .error .InvalidState := by
  obtain ⟨addr, hw, st, log⟩ := dev
  cases st <;> cases e <;>
    first
    | (simp [hasRow, transitionTable, LoraState.tableState, Event.name] at h; done)
    | exact enter_not_InvalidState _ _ _ _ _
    | (rename_i slot; cases slot <;> exact enter_not_InvalidState _ _ _ _ _)

/-! ## Claims -/

/-- C2: once `lora_register_hw` has succeeded on a handle, and whatever registry
calls follow as long as none of them unregisters that handle (every
`lora_unregister_hw` on it meets a state other than Stopped), a second
`lora_register_hw` on the handle fails with `AlreadyRegistered` and leaves the
registry as it was. -/
theorem register_twice_rejected (reg : Registry) (dev dev2 : Device)
    (calls : List RegistryCall)
    (hok : (lora_register_hw reg dev).1 = .ok ())
    (hsame : dev2.addr = dev.addr)
    (hkeep : ∀ x, RegistryCall.unregister x ∈ calls → x.addr = dev.addr →
      x.state ≠ .LORA_STOP) :
    lora_register_hw (runCalls (lora_register_hw reg dev).2 calls) dev2 =
      (.error .AlreadyRegistered, runCalls (lora_register_hw reg dev).2 calls) ∧
    (lora_register_hw (runCalls (lora_register_hw reg dev).2 calls) dev2).1 ≠ .ok () := by
  have hmem : dev2.addr ∈ runCalls (lora_register_hw reg dev).2 calls := by
    rw [hsame]
    exact mem_runCalls_of_mem calls _ dev.addr (mem_after_register_ok reg dev hok) hkeep
  have hres := register_of_mem _ dev2 hmem
  refine ⟨hres, ?_⟩
  rw [hres]
  simp

theorem register_twice_rejected_witness :
    (lora_register_hw [3] (sampleDev .LORA_STOP)).1 = .ok () ∧
    (sampleDev .LORA_STATE_IDLE).addr = (sampleDev .LORA_STOP).addr ∧
    runCalls (lora_register_hw [3] (sampleDev .LORA_STOP)).2 sampleCalls = [9, 7] ∧
    lora_register_hw (runCalls (lora_register_hw [3] (sampleDev .LORA_STOP)).2 sampleCalls)
        (sampleDev .LORA_STATE_IDLE) =
      (.error .AlreadyRegistered,
        runCalls (lora_register_hw [3] (sampleDev .LORA_STOP)).2 sampleCalls) :=
  ⟨rfl, rfl, by decide,
    (register_twice_rejected [3] (sampleDev .LORA_STOP) (sampleDev .LORA_STATE_IDLE)
      sampleCalls rfl rfl
      (by
        intro x hx ha
        simp only [sampleCalls, List.mem_cons, List.mem_singleton, reduceCtorEq,
          RegistryCall.unregister.injEq, false_or, List.not_mem_nil, or_false] at hx
        rcases hx with rfl | rfl
        · exact absurd ha (by decide)
        · decide)).1⟩

/-- C3, the claim as stated fails: `lora_unregister_hw` returns no value.  On the
registered device 7 the call made while transmitting, which is refused, and the
call made while stopped, which removes the device, hand the caller the same
result, so no reading of the result reports `InvalidState` for the first and
success for the second. -/
theorem unregister_result_reports_nothing :
    (sampleDev .LORA_STATE_TX).addr ∈ ([7] : Registry) ∧
    (sampleDev .LORA_STATE_TX).state ≠ .LORA_STOP ∧
    (lora_unregister_hw [7] (sampleDev .LORA_STATE_TX)).2 = [7] ∧
    (lora_unregister_hw [7] (sampleDev .LORA_STOP)).2 = [] ∧
    (lora_unregister_hw [7] (sampleDev .LORA_STATE_TX)).1 =
      (lora_unregister_hw [7] (sampleDev .LORA_STOP)).1 ∧
    ¬ ∃ report : Unit → Option LoraError,
      report (lora_unregister_hw [7] (sampleDev .LORA_STATE_TX)).1 = some .InvalidState ∧
      report (lora_unregister_hw [7] (sampleDev .LORA_STOP)).1 = none := by
  refine ⟨by decide, by decide, by decide, by decide, rfl, ?_⟩
  rintro ⟨report, h1, h2⟩
  have h : report (lora_unregister_hw [7] (sampleDev .LORA_STATE_TX)).1 =
      report (lora_unregister_hw [7] (sampleDev .LORA_STOP)).1 := rfl
  exact absurd (h1.symm.trans (h.trans h2)) (by decide)

/-- C3 as amended: for every registered handle whose state is anything other
than Stopped, `lora_unregister_hw` returns no value and leaves the registry as it
was, so the handle stays registered. -/
theorem unregister_not_stopped_keeps (reg : Registry) (dev : Device)
    (hreg : dev.addr ∈ reg) (hst : dev.state ≠ .LORA_STOP) :
    lora_unregister_hw reg dev = ((), reg) ∧ dev.addr ∈ (lora_unregister_hw reg dev).2 := by
  have h : lora_unregister_hw reg dev = ((), reg) := by
    simp [lora_unregister_hw, hst]
  exact ⟨h, by rw [h]; exact hreg⟩

theorem unregister_not_stopped_keeps_witness :
    (sampleDev .LORA_STATE_RX1).addr ∈ ([3, 7] : Registry) ∧
    (sampleDev .LORA_STATE_RX1).state ≠ .LORA_STOP ∧
    lora_unregister_hw [3, 7] (sampleDev .LORA_STATE_RX1) = ((), [3, 7]) ∧
    (sampleDev .LORA_STATE_RX1).addr ∈
      (lora_unregister_hw [3, 7] (sampleDev .LORA_STATE_RX1)).2 :=
  ⟨by decide, by decide,
    unregister_not_stopped_keeps [3, 7] (sampleDev .LORA_STATE_RX1) (by decide) (by decide)⟩

/-- C4: for every device, slot number, key buffer and length, whichever of its
two checks `lora_set_key` makes first: when the length is not 16 (`LORA_KEY_LEN`)
the call fails with `InvalidLength`, and when the slot is none of `LORA_APPKEY`,
`LORA_NWKSKEY`, `LORA_APPSKEY` it fails with `InvalidSlot` (when both are wrong,
with the one of the two whose check comes first); in both cases the device is as
it was before the call: no driver entry point was called (the call log is the
same) and the driver-private region is the same. -/
theorem set_key_validation (lengthFirst : Bool)
    (install : lora_hw → Nat → List Nat → Int × lora_hw)
    (dev : Device) (slot : Nat) (key : List Nat) (len : Nat) :
    (len ≠ LORA_KEY_LEN →
      ((lora_set_key lengthFirst install dev slot key len).1 = .error .InvalidLength ∨
        (u8 slot ∉ keySlots ∧ lengthFirst = false ∧
          (lora_set_key lengthFirst install dev slot key len).1 = .error .InvalidSlot)) ∧
      (lora_set_key lengthFirst install dev slot key len).2 = dev ∧
      (lora_set_key lengthFirst install dev slot key len).2.log = dev.log ∧
      (lora_set_key lengthFirst install dev slot key len).2.hw.priv = dev.hw.priv) ∧
    (u8 slot ∉ keySlots →
      ((lora_set_key lengthFirst install dev slot key len).1 = .error .InvalidSlot ∨
        (len ≠ LORA_KEY_LEN ∧ lengthFirst = true ∧
          (lora_set_key lengthFirst install dev slot key len).1 = .error .InvalidLength)) ∧
      (lora_set_key lengthFirst install dev slot key len).2 = dev ∧
      (lora_set_key lengthFirst install dev slot key len).2.log = dev.log ∧
      (lora_set_key lengthFirst install dev slot key len).2.hw.priv = dev.hw.priv) ∧
    LORA_KEY_LEN = 16 ∧ keySlots = [LORA_APPKEY, LORA_NWKSKEY, LORA_APPSKEY] := by
  refine ⟨?_, ?_, rfl, rfl⟩
  · intro hlen
    by_cases hslot : u8 slot ∉ keySlots <;> cases lengthFirst <;>
      simp [lora_set_key, hlen, hslot]
  · intro hslot
    by_cases hlen : len ≠ LORA_KEY_LEN <;> cases lengthFirst <;>
      simp [lora_set_key, hlen, hslot]

theorem set_key_validation_witness :
    15 ≠ LORA_KEY_LEN ∧
    (lora_set_key false sampleInstall (sampleDev .LORA_STATE_IDLE) LORA_NWKSKEY [1, 2, 3]
      15).1 = .error .InvalidLength ∧
    (lora_set_key false sampleInstall (sampleDev .LORA_STATE_IDLE) LORA_NWKSKEY [1, 2, 3]
      15).2 = sampleDev .LORA_STATE_IDLE ∧
    u8 3 ∉ keySlots ∧
    (lora_set_key true sampleInstall (sampleDev .LORA_STATE_IDLE) 3 (List.replicate 16 0)
      16).1 = .error .InvalidSlot ∧
    (lora_set_key true sampleInstall (sampleDev .LORA_STATE_IDLE) 3 (List.replicate 16 0)
      16).2 = sampleDev .LORA_STATE_IDLE :=
  ⟨by decide, rfl,
   ((set_key_validation false sampleInstall (sampleDev .LORA_STATE_IDLE) LORA_NWKSKEY
      [1, 2, 3] 15).1 (by decide)).2.1,
   by decide, rfl,
   ((set_key_validation true sampleInstall (sampleDev .LORA_STATE_IDLE) 3
      (List.replicate 16 0) 16).2.1 (by decide)).2.1⟩

/-- C5, the claim as stated fails: the state enumeration has seven values, not
six, and `LORA_START` (started, 1) and `LORA_STATE_IDLE` (idle, 2) are two
different values. -/
theorem loraState_not_six :
    Fintype.card LoraState ≠ 6 ∧
    LoraState.LORA_START ≠ LoraState.LORA_STATE_IDLE ∧
    LoraState.LORA_START.val = 1 ∧ LoraState.LORA_STATE_IDLE.val = 2 := by
  refine ⟨by decide, by decide, rfl, rfl⟩

/-- C5 as amended: the state enumeration has exactly seven pairwise distinct
values, `LORA_STOP`, `LORA_START`, `LORA_STATE_IDLE`, `LORA_STATE_TX`,
`LORA_STATE_RX1`, `LORA_STATE_RX2`, `LORA_STATE_CAD`, numbered 0 to 6 in that
order; started and idle are two different values; every state value is one of
these seven. -/
theorem loraState_seven :
    Fintype.card LoraState = 7 ∧
    loraStates.length = 7 ∧
    loraStates.Nodup ∧
    loraStates.map LoraState.val = [0, 1, 2, 3, 4, 5, 6] ∧
    LoraState.LORA_START ≠ LoraState.LORA_STATE_IDLE ∧
    (∀ s : LoraState, s ∈ loraStates) ∧
    (∀ s t : LoraState, s.val = t.val ↔ s = t) := by
  refine ⟨by decide, rfl, by decide, rfl, by decide, by decide, by decide⟩

/-- C6, the claim as stated fails: the command set has a set command for the LNA
automatic-gain-control toggle, `LRW_SET_LNAAGC`, and no get command for it. -/
theorem no_get_lnaagc :
    hasCommand .SET .LNAAGC = true ∧ hasCommand .GET .LNAAGC = false ∧
    ∀ c ∈ commands, ¬ (c.access = .GET ∧ c.param = .LNAAGC) := by
  refine ⟨by decide, by decide, by decide⟩

/-- C6 as amended: the command set holds fifteen commands: a set and a get
command for each of working state, carrier frequency, transmit power, LNA gain,
spreading factor and bandwidth; a set command and no get command for the LNA
automatic-gain-control toggle; a get command and no set command for RSSI and
for SNR. -/
theorem command_set_contents :
    commands.length = 15 ∧
    hasCommand .SET .STATE = true ∧ hasCommand .GET .STATE = true ∧
    hasCommand .SET .FREQUENCY = true ∧ hasCommand .GET .FREQUENCY = true ∧
    hasCommand .SET .POWER = true ∧ hasCommand .GET .POWER = true ∧
    hasCommand .SET .LNA = true ∧ hasCommand .GET .LNA = true ∧
    hasCommand .SET .SPRFACTOR = true ∧ hasCommand .GET .SPRFACTOR = true ∧
    hasCommand .SET .BANDWIDTH = true ∧ hasCommand .GET .BANDWIDTH = true ∧
    hasCommand .SET .LNAAGC = true ∧ hasCommand .GET .LNAAGC = false ∧
    hasCommand .GET .RSSI = true ∧ hasCommand .SET .RSSI = false ∧
    hasCommand .GET .SNR = true ∧ hasCommand .SET .SNR = false := by
  decide

/-- C7: for every one of the fifteen control commands, the argument-size field
of the command code (bits 16 to 29) is the size of one C `int`, 4 bytes. -/
theorem command_size_is_int (c : Command) (hc : c ∈ commands) :
    _IOC_SIZE c.code = sizeof_int ∧ (c.code >>> 16) % 2 ^ 14 = 4 ∧
      sizeof_int = 4 ∧ commands.length = 15 := by
  revert c
  decide

theorem command_size_is_int_witness :
    (⟨.GET, .SNR, LRW_GET_SNR⟩ : Command) ∈ commands ∧
    _IOC_SIZE LRW_GET_SNR = sizeof_int ∧ (LRW_GET_SNR >>> 16) % 2 ^ 14 = 4 ∧
      sizeof_int = 4 ∧ commands.length = 15 :=
  ⟨by decide, command_size_is_int ⟨.GET, .SNR, LRW_GET_SNR⟩ (by decide)⟩

/-- C8: the message-type enumeration has exactly seven pairwise distinct values,
join-request, join-accept, unconfirmed-data-up, unconfirmed-data-down,
confirmed-data-up, confirmed-data-down and proprietary, numbered 0 to 6 in that
order, and `LRW_DEVADDR_LEN` is 4. -/
theorem msgType_seven :
    Fintype.card MsgType = 7 ∧
    msgTypes.length = 7 ∧
    msgTypes.Nodup ∧
    msgTypes.map MsgType.val = [0, 1, 2, 3, 4, 5, 6] ∧
    (∀ m : MsgType, m ∈ msgTypes) ∧
    (∀ m n : MsgType, m.val = n.val ↔ m = n) ∧
    LRW_DEVADDR_LEN = 4 := by
  refine ⟨by decide, rfl, by decide, rfl, by decide, by decide, rfl⟩

/-- C9, the code at the failing input: `LRW_SET_LNAAGC` is a set command encoded
with the read direction (`_IOR`); it is the only command of the fifteen whose
direction bits differ from the direction its name calls for. -/
theorem set_lnaagc_encoded_as_read :
    _IOC_DIR LRW_SET_LNAAGC = _IOC_READ ∧
    _IOC_DIR LRW_SET_LNAAGC ≠ Access.SET.dir ∧
    LRW_SET_LNAAGC = _IOR LRW_IOC_MAGIC 8 sizeof_int ∧
    LRW_SET_LNAAGC ≠ _IOW LRW_IOC_MAGIC 8 sizeof_int ∧
    commands.filter (fun c => decide (_IOC_DIR c.code ≠ c.access.dir)) =
      [⟨.SET, .LNAAGC, LRW_SET_LNAAGC⟩] := by
  refine ⟨by decide, by decide, rfl, by decide, by decide⟩

/-- C10: the fifteen command codes are pairwise distinct integers; every one is
`dir<<30 | 4<<16 | 0x74<<8 | nr`, and the sequence numbers are 0, 1, ..., 14 in
source order, with no gap and no repeat. -/
theorem command_codes_distinct :
    commands.length = 15 ∧
    (commands.map Command.code).Nodup ∧
    commands.map (fun c => _IOC_NR c.code) = List.range 15 ∧
    commands.map (fun c => _IOC_TYPE c.code) = List.replicate 15 0x74 ∧
    commands.map (fun c => _IOC_SIZE c.code) = List.replicate 15 4 ∧
    commands.map Command.code =
      (List.range 15).map (fun nr =>
        ((if nr ∈ [0, 2, 4, 6, 9, 11] then 1 else 2) <<< 30) ||| (4 <<< 16) |||
          (0x74 <<< 8) ||| nr) := by
  refine ⟨rfl, by decide, by decide, by decide, by decide, by decide⟩

end LoRa
